import Mathlib

/-!
Verification of the MCQUIZ backend payment, subscription-admin and feedback
controllers.  The JavaScript handlers are shallowly embedded as pure Lean
functions over an explicit document-store state; machine arithmetic is done
on `Nat` with explicit `% 2 ^ 32` where the MD5 digest needs 32-bit wrap.
-/

namespace MCQuiz

/-! ## MD5 (model of Node `crypto.createHash` with the md5 algorithm)

The controllers call the Node standard library MD5 digest.  We embed the
RFC 1321 algorithm over lists of byte values (`Nat` below 256). -/

/-- UTF-8 encoding of one character as a list of byte values. -/
def utf8Bytes (c : Char) : List Nat :=
  let n := c.toNat
  if n < 128 then [n]
  else if n < 2048 then [192 + n / 64, 128 + n % 64]
  else if n < 65536 then [224 + n / 4096, 128 + n / 64 % 64, 128 + n % 64]
  else [240 + n / 262144, 128 + n / 4096 % 64, 128 + n / 64 % 64, 128 + n % 64]

/-- UTF-8 bytes of a string (Node hashes strings as UTF-8). -/
def strBytes (s : String) : List Nat :=
  s.data.foldr (fun c acc => utf8Bytes c ++ acc) []

/-- Per-round sine-derived constants of RFC 1321. -/
def md5K : List Nat :=
  [3614090360, 3905402710, 606105819, 3250441966, 4118548399, 1200080426, 2821735955, 4249261313,
   1770035416, 2336552879, 4294925233, 2304563134, 1804603682, 4254626195, 2792965006, 1236535329,
   4129170786, 3225465664, 643717713, 3921069994, 3593408605, 38016083, 3634488961, 3889429448,
   568446438, 3275163606, 4107603335, 1163531501, 2850285829, 4243563512, 1735328473, 2368359562,
   4294588738, 2272392833, 1839030562, 4259657740, 2763975236, 1272893353, 4139469664, 3200236656,
   681279174, 3936430074, 3572445317, 76029189, 3654602809, 3873151461, 530742520, 3299628645,
   4096336452, 1126891415, 2878612391, 4237533241, 1700485571, 2399980690, 4293915773, 2240044497,
   1873313359, 4264355552, 2734768916, 1309151649, 4149444226, 3174756917, 718787259, 3951481745]

/-- Per-round left-rotation amounts of RFC 1321. -/
def md5S : List Nat :=
  [7, 12, 17, 22, 7, 12, 17, 22, 7, 12, 17, 22, 7, 12, 17, 22,
   5, 9, 14, 20, 5, 9, 14, 20, 5, 9, 14, 20, 5, 9, 14, 20,
   4, 11, 16, 23, 4, 11, 16, 23, 4, 11, 16, 23, 4, 11, 16, 23,
   6, 10, 15, 21, 6, 10, 15, 21, 6, 10, 15, 21, 6, 10, 15, 21]

/-- Rotate a 32-bit value left by `s` bits. -/
def rotl32 (x s : Nat) : Nat :=
  ((x * 2 ^ s) % 4294967296) + (x % 4294967296) / 2 ^ (32 - s)

/-- Round mixing function of RFC 1321 (selected by the step index). -/
def md5F (i b c d : Nat) : Nat :=
  if i < 16 then (b &&& c) ||| ((b ^^^ 4294967295) &&& d)
  else if i < 32 then (d &&& b) ||| ((d ^^^ 4294967295) &&& c)
  else if i < 48 then b ^^^ c ^^^ d
  else c ^^^ (b ||| (d ^^^ 4294967295))

/-- Message-word index schedule of RFC 1321. -/
def md5G (i : Nat) : Nat :=
  if i < 16 then i
  else if i < 32 then (5 * i + 1) % 16
  else if i < 48 then (3 * i + 5) % 16
  else (7 * i) % 16

/-- One of the 64 steps of an MD5 block computation. -/
def md5Step (M : List Nat) (st : Nat × Nat × Nat × Nat) (i : Nat) : Nat × Nat × Nat × Nat :=
  let a := st.1
  let b := st.2.1
  let c := st.2.2.1
  let d := st.2.2.2
  let f := (md5F i b c d + a + md5K.getD i 0 + M.getD (md5G i) 0) % 4294967296
  (d, (b + rotl32 f (md5S.getD i 0)) % 4294967296, b, c)

/-- Process one 16-word block, adding the round output into the state. -/
def md5Block (st : Nat × Nat × Nat × Nat) (M : List Nat) : Nat × Nat × Nat × Nat :=
  let r := (List.range 64).foldl (md5Step M) st
  ((st.1 + r.1) % 4294967296, (st.2.1 + r.2.1) % 4294967296,
   (st.2.2.1 + r.2.2.1) % 4294967296, (st.2.2.2 + r.2.2.2) % 4294967296)

/-- Merkle-Damgard padding: a 128 byte, zeros to 56 mod 64, 8-byte little-endian bit length. -/
def md5Pad (msg : List Nat) : List Nat :=
  let len := msg.length
  let zeros := (120 - (len + 1) % 64) % 64
  let bitLen := (len * 8) % 18446744073709551616
  msg ++ [128] ++ List.replicate zeros 0 ++ (List.range 8).map (fun i => bitLen / 256 ^ i % 256)

/-- Split a byte list into 64-byte chunks (fuel-driven structural recursion). -/
def chunksAux : Nat → List Nat → List (List Nat)
  | 0, _ => []
  | _ + 1, [] => []
  | n + 1, l => l.take 64 :: chunksAux n (l.drop 64)

def chunks64 (l : List Nat) : List (List Nat) := chunksAux l.length l

/-- Little-endian 32-bit words from bytes. -/
def bytesToWords : List Nat → List Nat
  | b0 :: b1 :: b2 :: b3 :: rest =>
      (b0 + 256 * b1 + 65536 * b2 + 16777216 * b3) :: bytesToWords rest
  | _ => []

/-- Little-endian bytes of a 32-bit word. -/
def wordBytes (w : Nat) : List Nat :=
  [w % 256, w / 256 % 256, w / 65536 % 256, w / 16777216 % 256]

/-- MD5 digest: 16 output bytes for an input byte list. -/
def md5Bytes (msg : List Nat) : List Nat :=
  let st0 : Nat × Nat × Nat × Nat := (1732584193, 4023233417, 2562383102, 271733878)
  let fin := (chunks64 (md5Pad msg)).foldl (fun st chunk => md5Block st (bytesToWords chunk)) st0
  wordBytes fin.1 ++ wordBytes fin.2.1 ++ wordBytes fin.2.2.1 ++ wordBytes fin.2.2.2

/-- Lowercase hex digit for a value below 16. -/
def hexDigit (n : Nat) : Char := if n < 10 then Char.ofNat (48 + n) else Char.ofNat (87 + n)

/-- Two lowercase hex characters of one byte. -/
def byteHex (b : Nat) : List Char := [hexDigit (b / 16), hexDigit (b % 16)]

/-- Model of `crypto.createHash(..).update(s).digest(..)` with lowercase hex output. -/
def md5Hex (s : String) : String :=
  ⟨(md5Bytes (strBytes s)).foldr (fun b acc => byteHex b ++ acc) []⟩

/-- Model of `digest(..).toUpperCase()` as the controllers use it. -/
def md5HexUpper (s : String) : String := (md5Hex s).toUpper

/-! ## Data model

Document collections are embedded as lists; a mongoose `save` on a fetched
document is embedded as replacing the document with the same `_id`.
Amounts are exact cent counts (the JS sources only ever format them with
`toFixed(2)`), and timestamps are millisecond epoch integers. -/

structure User where
  id : Nat
  email : String
  subscriptionLevel : String
  role : String
deriving DecidableEq

structure Subscription where
  id : Nat
  userId : Nat
  planType : String
  startDate : Int
  endDate : Int
  orderId : String
  paymentId : Option String
  amountCents : Nat
  status : String
  rejectionReason : Option String
deriving DecidableEq

structure Feedback where
  id : Nat
  user : Nat
  feedback : String
  sentiment : String
  confidence : ℚ
  isActive : Bool
  createdAt : Int
deriving DecidableEq

structure DB where
  users : List User
  subscriptions : List Subscription
  feedbacks : List Feedback
deriving DecidableEq

/-- HTTP reply: status code, message, and the payment hash field that
`initializePayment` returns inside its `paymentData` object. -/
structure Resp where
  status : Nat
  message : String
  paymentHash : Option String
deriving DecidableEq

def mkResp (status : Nat) (message : String) : Resp := ⟨status, message, none⟩

/-! ## Payment controller (src/controllers/paymentController.js) -/

/-- Model of `amount.toFixed(2)` for an exact amount in cents. -/
def formatAmount2 (cents : Nat) : String :=
  toString (cents / 100) ++ "." ++ (if cents % 100 < 10 then "0" else "") ++ toString (cents % 100)

/-- Hash computed by `initializePayment` (lines 33-38): md5 of
merchant id, order id, amount with two decimals, currency and the
uppercase md5 of the merchant secret, uppercased. -/
def generatePaymentHash (merchantId merchantSecret orderId : String)
    (amountCents : Nat) (currency : String) : String :=
  md5HexUpper (merchantId ++ orderId ++ formatAmount2 amountCents ++ currency ++
    md5HexUpper merchantSecret)

/-- Webhook payload destructured by `handlePaymentNotification`
(`custom_1` and `method` are read but never used). -/
structure NotifyPayload where
  merchant_id : String
  order_id : String
  payment_id : String
  payhere_amount : String
  payhere_currency : String
  status_code : String
  md5sig : String
deriving DecidableEq

/-- The `statusMap` object of `handlePaymentNotification` (lines 108-114). -/
def statusMap : List (String × String) :=
  [("2", "success"), ("0", "pending"), ("-1", "canceled"), ("-2", "failed"),
   ("-3", "chargedback")]

/-- The `calculatedMd5sig` of `handlePaymentNotification` (lines 90-101). -/
def calcMd5sig (merchantSecret : String) (p : NotifyPayload) : String :=
  md5HexUpper (p.merchant_id ++ p.order_id ++ p.payhere_amount ++ p.payhere_currency ++
    p.status_code ++ md5HexUpper merchantSecret)

/-- Model of `handlePaymentNotification` (lines 74-141).  The merchant
secret comes from the environment and is passed explicitly. -/
def handlePaymentNotification (merchantSecret : String) (p : NotifyPayload)
    (db : DB) : Resp × DB :=
  if calcMd5sig merchantSecret p ≠ p.md5sig then
    (mkResp 400 "Invalid payment signature", db)
  else
    match db.subscriptions.find? (fun s => s.orderId == p.order_id) with
    | none => (mkResp 404 "Subscription not found", db)
    | some sub =>
      let mapped := statusMap.lookup p.status_code
      let newStatus := if mapped = some "success" then "paid" else mapped.getD "pending"
      let sub' := { sub with paymentId := some p.payment_id, status := newStatus }
      (mkResp 200 "Payment notification received",
       { db with subscriptions :=
           db.subscriptions.map (fun s => if s.id == sub.id then sub' else s) })

/-- Model of `initializePayment` (lines 5-72).  The generated order id,
fresh document id, clock value and environment credentials are passed as
inputs; `authUserId = none` models a missing `req.user`. -/
def initializePayment (authUserId : Option Nat) (planType : String) (amountCents : Nat)
    (orderId : String) (newId : Nat) (now : Int) (merchantId merchantSecret : String)
    (db : DB) : Resp × DB :=
  match authUserId with
  | none => (mkResp 401 "Authentication required", db)
  | some uid =>
    let sub : Subscription :=
      { id := newId, userId := uid, planType := planType, startDate := now,
        endDate := now + 365 * 24 * 60 * 60 * 1000, orderId := orderId,
        paymentId := none, amountCents := amountCents, status := "pending",
        rejectionReason := none }
    let db1 := { db with subscriptions := db.subscriptions ++ [sub] }
    let hash := generatePaymentHash merchantId merchantSecret orderId amountCents "LKR"
    match db1.users.find? (fun u => u.id == uid) with
    | none => (mkResp 404 "User not found", db1)
    | some _ => (⟨200, "payment data", some hash⟩, db1)

/-! ## Subscription admin controller (src/unnamed/part_002) -/

/-- Model of `approveSubscription` (lines 109-147). -/
def approveSubscription (subscriptionId : Nat) (db : DB) : Resp × DB :=
  match db.subscriptions.find? (fun s => s.id == subscriptionId) with
  | none => (mkResp 404 "Subscription not found", db)
  | some sub =>
    if ! (["pending", "paid"].contains sub.status) then
      (mkResp 400 "Only pending or paid subscriptions can be approved", db)
    else
      let sub' := { sub with status := "success" }
      let subs' := db.subscriptions.map (fun s => if s.id == sub.id then sub' else s)
      let db1 : DB := { db with subscriptions := subs' }
      match db1.users.find? (fun u => u.id == sub.userId) with
      | none => (mkResp 200 "Subscription approved successfully", db1)
      | some u =>
        let u' := { u with subscriptionLevel := sub.planType }
        (mkResp 200 "Subscription approved successfully",
         { db1 with users := db1.users.map (fun v => if v.id == u.id then u' else v) })

/-- Model of `rejectSubscription` (lines 150-185); `reason = none` models
a missing or falsy `req.body.reason`. -/
def rejectSubscription (subscriptionId : Nat) (reason : Option String)
    (db : DB) : Resp × DB :=
  match db.subscriptions.find? (fun s => s.id == subscriptionId) with
  | none => (mkResp 404 "Subscription not found", db)
  | some sub =>
    if ! (["pending", "paid"].contains sub.status) then
      (mkResp 400 "Only pending or paid subscriptions can be rejected", db)
    else
      let newReason := match reason with
        | some r => some r
        | none => sub.rejectionReason
      let sub' := { sub with status := "failed", rejectionReason := newReason }
      (mkResp 200 "Subscription rejected successfully",
       { db with subscriptions :=
           db.subscriptions.map (fun s => if s.id == sub.id then sub' else s) })

/-! ## Feedback controller (src/unnamed/part_001) -/

/-- Substring membership of `needle` at the head of `hay`. -/
def matchesAt : List Char → List Char → Bool
  | _, [] => true
  | [], _ :: _ => false
  | a :: as, b :: bs => a == b && matchesAt as bs

/-- Model of the JS `String.prototype.includes`. -/
def listIncl : List Char → List Char → Bool
  | [], needle => needle.isEmpty
  | a :: as, needle => matchesAt (a :: as) needle || listIncl as needle

def strIncludes (hay needle : String) : Bool := listIncl hay.data needle.data

/-- Leading-whitespace removal on a character list. -/
def dropLeadingWS : List Char → List Char
  | [] => []
  | c :: cs => if c.isWhitespace then dropLeadingWS cs else c :: cs

/-- Model of the JS `String.prototype.trim` (strip whitespace at both
ends), kept executable by kernel reduction. -/
def strTrim (s : String) : String :=
  ⟨(dropLeadingWS (dropLeadingWS s.data).reverse).reverse⟩

/-- The rule-based sentiment fallback of `submitFeedback` (lines 68-76). -/
def fallbackSentiment (text : String) : String × ℚ :=
  (if strIncludes text.toLower "good" || strIncludes text.toLower "great" ||
      strIncludes text.toLower "excellent" || strIncludes text.toLower "love" ||
      strIncludes text.toLower "amazing" then "positive" else "negative", 6/10)

/-- Model of `submitFeedback` (lines 47-104).  The external Python
classifier is an opaque collaborator; its outcome is passed in as
`classifyResult`, with `none` modelling the failure (fallback) path. -/
def submitFeedback (classifyResult : Option (String × ℚ)) (authUserId : Nat)
    (feedbackText : String) (newId : Nat) (now : Int) (db : DB) : Resp × DB :=
  if strTrim feedbackText = "" then (mkResp 400 "Feedback text is required", db)
  else
    match db.users.find? (fun u => u.id == authUserId) with
    | none => (mkResp 404 "User not found", db)
    | some _ =>
      let sentimentResult : String × ℚ := match classifyResult with
        | some r => r
        | none => fallbackSentiment feedbackText
      let conf := if sentimentResult.2 = 0 then (6 : ℚ)/10 else sentimentResult.2
      let fbRecord : Feedback :=
        { id := newId, user := authUserId, feedback := strTrim feedbackText,
          sentiment := sentimentResult.1, confidence := conf, isActive := true,
          createdAt := now }
      (mkResp 201 "Feedback submitted successfully",
       { db with feedbacks := db.feedbacks ++ [fbRecord] })

/-- Confidence bucket filter of `getAllFeedback` (lines 127-139); a value
other than the three buckets adds no constraint, like the JS switch. -/
def confidenceMatch (confidenceFilter : String) (c : ℚ) : Bool :=
  if confidenceFilter = "high" then decide ((8 : ℚ)/10 ≤ c)
  else if confidenceFilter = "medium" then decide ((6 : ℚ)/10 ≤ c) && decide (c < (8 : ℚ)/10)
  else if confidenceFilter = "low" then decide (c < (6 : ℚ)/10)
  else true

/-- Date cutoff of `getAllFeedback` (lines 142-161).  The calendar values
`todayStart` and `monthStart` (midnight today, first of the month) are
environment-derived and passed in; the week cutoff is computed as in the
source.  An unknown range leaves `startDate` undefined, hence no filter. -/
def resolveStartDate (dateRange : String) (now todayStart monthStart : Int) : Option Int :=
  if dateRange = "all" then none
  else if dateRange = "today" then some todayStart
  else if dateRange = "week" then some (now - 7 * 24 * 60 * 60 * 1000)
  else if dateRange = "month" then some monthStart
  else none

/-- The mongo query built by `getAllFeedback` (lines 118-161), as a
predicate on one feedback document. -/
def feedbackQuery (filter confidenceFilter : String) (startDate : Option Int)
    (fb : Feedback) : Bool :=
  fb.isActive && (if filter = "all" then true else fb.sentiment == filter) &&
    confidenceMatch confidenceFilter fb.confidence &&
    (match startDate with
     | none => true
     | some d => decide (d ≤ fb.createdAt))

/-- Sort key comparison of `getAllFeedback` (lines 163-165). -/
def feedbackLE (sortBy sortOrder : String) (a b : Feedback) : Bool :=
  let keyLE : Feedback → Feedback → Bool := fun x y =>
    if sortBy = "confidence" then decide (x.confidence ≤ y.confidence)
    else if sortBy = "sentiment" then decide (x.sentiment ≤ y.sentiment)
    else decide (x.createdAt ≤ y.createdAt)
  if sortOrder = "asc" then keyLE a b else keyLE b a

/-- The pagination part of the `getAllFeedback` JSON response. -/
structure FeedbackPage where
  items : List Feedback
  currentPage : Nat
  totalPages : Nat
  totalItems : Nat
  itemsPerPage : Nat
deriving DecidableEq

/-- Model of `getAllFeedback` (lines 107-201).  `pageQ = 0` and
`limitQ = 0` model a missing or unparsable query value, so the
`parseInt(x) || default` fallbacks apply exactly as in the source. -/
def getAllFeedback (pageQ limitQ : Nat) (filter confidenceFilter dateRange sortBy sortOrder : String)
    (now todayStart monthStart : Int) (db : DB) : FeedbackPage :=
  let page := if pageQ = 0 then 1 else pageQ
  let limit := if limitQ = 0 then 10 else limitQ
  let skip := (page - 1) * limit
  let startDate := resolveStartDate dateRange now todayStart monthStart
  let matching := db.feedbacks.filter (feedbackQuery filter confidenceFilter startDate)
  let sorted := matching.mergeSort (feedbackLE sortBy sortOrder)
  let total := matching.length
  { items := (sorted.drop skip).take limit,
    currentPage := page,
    totalPages := ⌈(total : ℚ) / (limit : ℚ)⌉₊,
    totalItems := total,
    itemsPerPage := limit }

/-! ## The operations of the subscription lifecycle (claim C3) -/

/-- One lifecycle operation: a provider webhook, an admin approval, or an
admin rejection. -/
inductive LifecycleOp where
  | notify (merchantSecret : String) (p : NotifyPayload)
  | approve (subscriptionId : Nat)
  | reject (subscriptionId : Nat) (reason : Option String)

def applyOp : LifecycleOp → DB → Resp × DB
  | .notify secret p, db => handlePaymentNotification secret p db
  | .approve i, db => approveSubscription i db
  | .reject i r, db => rejectSubscription i r db

def isAdminOp : LifecycleOp → Bool
  | .notify _ _ => false
  | .approve _ => true
  | .reject _ _ => true

/-- The forward edges of the status lifecycle stated by the spec:
pending to paid to success, pending or paid to any of the failure
states, and staying put; terminal states admit only staying put. -/
def statusForward (a b : String) : Bool :=
  a == b ||
  (a == "pending" && (b == "paid" || b == "success" || b == "failed" ||
    b == "canceled" || b == "chargedback")) ||
  (a == "paid" && (b == "success" || b == "failed" || b == "canceled" ||
    b == "chargedback"))

/-- The status-code mapping stated by the spec for non-successful codes:
0 to pending, -1 to canceled, -2 to failed, -3 to chargedback, and any
other code defaults to pending. -/
def specStatusOf (c : String) : String :=
  if c = "0" then "pending"
  else if c = "-1" then "canceled"
  else if c = "-2" then "failed"
  else if c = "-3" then "chargedback"
  else "pending"

/-- The reference double-hash scheme in the words of the spec, parametric
in the digest: hash the shared secret, uppercase it, hash the
concatenation of the public fields with that hashed secret, uppercase. -/
def specDoubleHash (digest : String → String) (merchantId merchantSecret orderId : String)
    (amountCents : Nat) (currency : String) : String :=
  (digest (merchantId ++ orderId ++ formatAmount2 amountCents ++ currency ++
    (digest merchantSecret).toUpper)).toUpper

/-! ## Concrete stores and payloads used by witnesses and counterexamples -/

def w1Sub : Subscription :=
  ⟨1, 1, "School Pro", 0, 31536000000, "MC-1", none, 150000, "pending", none⟩

def w1Db : DB := ⟨[], [w1Sub], []⟩

def w1Payload0 : NotifyPayload := ⟨"M1", "MC-1", "PAY-9", "1500.00", "LKR", "2", ""⟩

def w1Payload : NotifyPayload := { w1Payload0 with md5sig := calcMd5sig "secret1" w1Payload0 }

def w5Payload0 : NotifyPayload := ⟨"M1", "MC-1", "PAY-9", "1500.00", "LKR", "-2", ""⟩

def w5Payload : NotifyPayload := { w5Payload0 with md5sig := calcMd5sig "secret1" w5Payload0 }

def w4User : User := ⟨7, "student@mcquiz.lk", "Basic", "user"⟩

def w4Sub : Subscription :=
  ⟨3, 7, "O/L Pro", 0, 31536000000, "MC-3", some "PAY-3", 200000, "paid", none⟩

def w4Db : DB := ⟨[w4User], [w4Sub], []⟩

def w9Db : DB := ⟨[], [], []⟩

def w7User : User := ⟨2, "fan@mcquiz.lk", "Basic", "user"⟩

def w7Db : DB := ⟨[w7User], [], []⟩

/-- All subscription fields except status and rejection reason. -/
def subFrame (s : Subscription) :
    Nat × Nat × String × Int × Int × String × Option String × Nat :=
  (s.id, s.userId, s.planType, s.startDate, s.endDate, s.orderId, s.paymentId, s.amountCents)

def c2Payload1a : NotifyPayload := ⟨"M1", "MC-2", "PAY-2", "1000.00", "LKR", "2", ""⟩

def c2Payload1 : NotifyPayload := { c2Payload1a with md5sig := calcMd5sig "secret1" c2Payload1a }

/-- The tampered payload: different amount and currency, original signature. -/
def c2Payload2 : NotifyPayload :=
  { c2Payload1 with payhere_amount := "1000.0", payhere_currency := "0LKR" }

def c3SubPaid : Subscription :=
  ⟨1, 1, "School Pro", 0, 31536000000, "MC-3x", some "PAY-1", 150000, "paid", none⟩

def c3Sub : Subscription := { c3SubPaid with status := "success" }

def c3DbPaid : DB := ⟨[], [c3SubPaid], []⟩

/-- State reached from `c3DbPaid` by an admin approval. -/
def c3Db : DB := ⟨[], [c3Sub], []⟩

def c3Payload0 : NotifyPayload := ⟨"M1", "MC-3x", "PAY-9", "1500.00", "LKR", "-1", ""⟩

def c3Payload : NotifyPayload := { c3Payload0 with md5sig := calcMd5sig "secret1" c3Payload0 }

/-! ## Helper lemmas -/

lemma lookup_statusMap_none (c : String) (h2 : c ≠ "2") (h0 : c ≠ "0") (h1 : c ≠ "-1")
    (hm2 : c ≠ "-2") (hm3 : c ≠ "-3") : statusMap.lookup c = none := by
  have e2 : (c == "2") = false := beq_eq_false_iff_ne.mpr h2
  have e0 : (c == "0") = false := beq_eq_false_iff_ne.mpr h0
  have e1 : (c == "-1") = false := beq_eq_false_iff_ne.mpr h1
  have f2 : (c == "-2") = false := beq_eq_false_iff_ne.mpr hm2
  have f3 : (c == "-3") = false := beq_eq_false_iff_ne.mpr hm3
  simp [statusMap, List.lookup, e2, e0, e1, f2, f3]

lemma statusForward_self (s : String) : statusForward s s = true := by
  simp [statusForward]

lemma contains_pending_paid (s : String) :
    (["pending", "paid"].contains s) = true ↔ s = "pending" ∨ s = "paid" := by
  by_cases h1 : s = "pending" <;> by_cases h2 : s = "paid" <;>
    simp [List.contains, h1, h2]

/-! ## C1 -/

/-- C1: a webhook notification that passes signature verification and
whose status code maps to the successful provider code sets the matched
subscription status to paid, never directly to success. -/
theorem C1_success_webhook_sets_paid (secret : String) (p : NotifyPayload) (db : DB)
    (sub : Subscription)
    (hsig : calcMd5sig secret p = p.md5sig)
    (hfind : db.subscriptions.find? (fun s => s.orderId == p.order_id) = some sub)
    (hcode : statusMap.lookup p.status_code = some "success") :
    ∃ sub' ∈ (handlePaymentNotification secret p db).2.subscriptions,
      sub'.id = sub.id ∧ sub'.status = "paid" ∧ sub'.status ≠ "success" := by
  have hnot : ¬ (calcMd5sig secret p ≠ p.md5sig) := fun h => h hsig
  simp only [handlePaymentNotification, if_neg hnot, hfind, hcode]
  refine ⟨_, List.mem_map_of_mem _ (List.mem_of_find?_eq_some hfind), ?_⟩
  simp

theorem C1_success_webhook_sets_paid_witness :
    ∃ sub' ∈ (handlePaymentNotification "secret1" w1Payload w1Db).2.subscriptions,
      sub'.id = w1Sub.id ∧ sub'.status = "paid" ∧ sub'.status ≠ "success" :=
  C1_success_webhook_sets_paid "secret1" w1Payload w1Db w1Sub rfl rfl rfl

/-! ## C5 -/

/-- C5: a verified webhook whose status code is not the successful code
stores the status given by the fixed mapping 0 to pending, -1 to
canceled, -2 to failed, -3 to chargedback, anything else to pending. -/
theorem C5_nonsuccess_webhook_status_mapping (secret : String) (p : NotifyPayload)
    (db : DB) (sub : Subscription)
    (hsig : calcMd5sig secret p = p.md5sig)
    (hfind : db.subscriptions.find? (fun s => s.orderId == p.order_id) = some sub)
    (hcode : p.status_code ≠ "2") :
    ∃ sub' ∈ (handlePaymentNotification secret p db).2.subscriptions,
      sub'.id = sub.id ∧ sub'.status = specStatusOf p.status_code := by
  have hnot : ¬ (calcMd5sig secret p ≠ p.md5sig) := fun h => h hsig
  simp only [handlePaymentNotification, if_neg hnot, hfind]
  refine ⟨_, List.mem_map_of_mem _ (List.mem_of_find?_eq_some hfind), ?_⟩
  by_cases h0 : p.status_code = "0"
  · simp [h0, statusMap, List.lookup, specStatusOf]
  · by_cases h1 : p.status_code = "-1"
    · simp [h1, statusMap, List.lookup, specStatusOf]
    · by_cases hm2 : p.status_code = "-2"
      · simp [hm2, statusMap, List.lookup, specStatusOf]
      · by_cases hm3 : p.status_code = "-3"
        · simp [hm3, statusMap, List.lookup, specStatusOf]
        · simp [lookup_statusMap_none _ hcode h0 h1 hm2 hm3, specStatusOf,
            h0, h1, hm2, hm3]

theorem C5_nonsuccess_webhook_status_mapping_witness :
    ∃ sub' ∈ (handlePaymentNotification "secret1" w5Payload w1Db).2.subscriptions,
      sub'.id = w1Sub.id ∧ sub'.status = specStatusOf w5Payload.status_code :=
  C5_nonsuccess_webhook_status_mapping "secret1" w5Payload w1Db w1Sub rfl rfl (by decide)

/-! ## C4 -/

/-- C4: approval succeeds exactly from prior status pending or paid, in
which case the subscription becomes success and the plan type is copied
onto the subscription level of the owning user; any other prior status
yields a 400 response and an unchanged store. -/
theorem C4_approve_requires_pending_or_paid (db : DB) (subId : Nat)
    (sub : Subscription) (u : User)
    (hfind : db.subscriptions.find? (fun s => s.id == subId) = some sub)
    (huser : db.users.find? (fun v => v.id == sub.userId) = some u) :
    ((sub.status = "pending" ∨ sub.status = "paid") →
      (approveSubscription subId db).1.status = 200 ∧
      (∃ sub' ∈ (approveSubscription subId db).2.subscriptions,
        sub'.id = sub.id ∧ sub'.status = "success") ∧
      (∃ u' ∈ (approveSubscription subId db).2.users,
        u'.id = u.id ∧ u'.subscriptionLevel = sub.planType)) ∧
    (¬ (sub.status = "pending" ∨ sub.status = "paid") →
      (approveSubscription subId db).1 =
        mkResp 400 "Only pending or paid subscriptions can be approved" ∧
      (approveSubscription subId db).2 = db) := by
  constructor
  · intro hok
    have hc : (["pending", "paid"].contains sub.status) = true :=
      (contains_pending_paid sub.status).mpr hok
    simp only [approveSubscription, hfind, hc, Bool.not_true, Bool.false_eq_true,
      if_false, huser]
    refine ⟨rfl, ⟨_, List.mem_map_of_mem _ (List.mem_of_find?_eq_some hfind), by simp⟩,
      ⟨_, List.mem_map_of_mem _ (List.mem_of_find?_eq_some huser), by simp⟩⟩
  · intro hko
    simp only [approveSubscription, hfind]
    simp only [List.contains, List.elem]
    rw [if_pos]
    · exact ⟨rfl, rfl⟩
    · have h12 := not_or.mp hko
      have e1 : (sub.status == "pending") = false := beq_eq_false_iff_ne.mpr h12.1
      have e2 : (sub.status == "paid") = false := beq_eq_false_iff_ne.mpr h12.2
      simp [e1, e2]

theorem C4_approve_requires_pending_or_paid_witness :
    ((w4Sub.status = "pending" ∨ w4Sub.status = "paid") →
      (approveSubscription 3 w4Db).1.status = 200 ∧
      (∃ sub' ∈ (approveSubscription 3 w4Db).2.subscriptions,
        sub'.id = w4Sub.id ∧ sub'.status = "success") ∧
      (∃ u' ∈ (approveSubscription 3 w4Db).2.users,
        u'.id = w4User.id ∧ u'.subscriptionLevel = w4Sub.planType)) ∧
    (¬ (w4Sub.status = "pending" ∨ w4Sub.status = "paid") →
      (approveSubscription 3 w4Db).1 =
        mkResp 400 "Only pending or paid subscriptions can be approved" ∧
      (approveSubscription 3 w4Db).2 = w4Db) :=
  C4_approve_requires_pending_or_paid w4Db 3 w4Sub w4User (by decide) (by decide)

/-! ## C9 -/

/-- C9: when the authenticated user id matches no stored user,
`initializePayment` answers 404 User not found, yet the fresh pending
subscription created earlier in the handler is already persisted, so the
error response does not leave the store unchanged. -/
theorem C9_init_payment_404_persists_subscription (uid newId : Nat) (planType : String)
    (amountCents : Nat) (orderId : String) (now : Int) (mid secret : String) (db : DB)
    (hnouser : db.users.find? (fun u => u.id == uid) = none) :
    (initializePayment (some uid) planType amountCents orderId newId now mid secret db).1 =
      mkResp 404 "User not found" ∧
    (initializePayment (some uid) planType amountCents orderId newId now mid secret db).2.subscriptions =
      db.subscriptions ++
        [{ id := newId, userId := uid, planType := planType, startDate := now,
           endDate := now + 365 * 24 * 60 * 60 * 1000, orderId := orderId,
           paymentId := none, amountCents := amountCents, status := "pending",
           rejectionReason := none }] := by
  simp [initializePayment, hnouser]

theorem C9_init_payment_404_persists_subscription_witness :
    (initializePayment (some 7) "A/L Pro" 250000 "MC-7" 9 0 "M1" "secret1" w9Db).1 =
      mkResp 404 "User not found" ∧
    (initializePayment (some 7) "A/L Pro" 250000 "MC-7" 9 0 "M1" "secret1" w9Db).2.subscriptions =
      w9Db.subscriptions ++
        [{ id := 9, userId := 7, planType := "A/L Pro", startDate := 0,
           endDate := 0 + 365 * 24 * 60 * 60 * 1000, orderId := "MC-7",
           paymentId := none, amountCents := 250000, status := "pending",
           rejectionReason := none }] :=
  C9_init_payment_404_persists_subscription 7 9 "A/L Pro" 250000 "MC-7" 0 "M1" "secret1"
    w9Db rfl

/-! ## C7 -/

/-- C7: with a non-empty feedback text, an existing user and a failing
external classifier, `submitFeedback` still persists a sentiment record:
the fallback sentiment is positive exactly when the lowercased text
contains one of the five fixed keywords, and the confidence is the fixed
constant 0.6. -/
theorem C7_feedback_fallback_record (uid newId : Nat) (now : Int) (text : String)
    (u : User) (db : DB)
    (htrim : strTrim text ≠ "")
    (huser : db.users.find? (fun v => v.id == uid) = some u) :
    (submitFeedback none uid text newId now db).1.status = 201 ∧
    (submitFeedback none uid text newId now db).2.feedbacks =
      db.feedbacks ++
        [{ id := newId, user := uid, feedback := strTrim text,
           sentiment := if strIncludes text.toLower "good" || strIncludes text.toLower "great" ||
               strIncludes text.toLower "excellent" || strIncludes text.toLower "love" ||
               strIncludes text.toLower "amazing" then "positive" else "negative",
           confidence := 6/10, isActive := true, createdAt := now }] := by
  have h6 : ¬ ((6 : ℚ)/10 = 0) := by norm_num
  simp [submitFeedback, mkResp, htrim, huser, fallbackSentiment, h6]

theorem C7_feedback_fallback_record_witness :
    (submitFeedback none 2 "This app is amazing" 11 5 w7Db).1.status = 201 ∧
    (submitFeedback none 2 "This app is amazing" 11 5 w7Db).2.feedbacks =
      w7Db.feedbacks ++
        [{ id := 11, user := 2, feedback := strTrim "This app is amazing",
           sentiment := if strIncludes "This app is amazing".toLower "good" ||
               strIncludes "This app is amazing".toLower "great" ||
               strIncludes "This app is amazing".toLower "excellent" ||
               strIncludes "This app is amazing".toLower "love" ||
               strIncludes "This app is amazing".toLower "amazing" then "positive"
             else "negative",
           confidence := 6/10, isActive := true, createdAt := 5 }] :=
  C7_feedback_fallback_record 2 11 5 "This app is amazing" w7User w7Db (by decide) (by decide)

/-! ## C10 -/

/-- C10: `rejectSubscription` touches only the status and rejection
reason of subscription documents; user documents (hence the user
subscription level), feedback documents, and every other subscription
field are unchanged. -/
theorem C10_reject_frame (db : DB) (subId : Nat) (reason : Option String)
    (hnd : (db.subscriptions.map (fun s => s.id)).Nodup) :
    (rejectSubscription subId reason db).2.users = db.users ∧
    (rejectSubscription subId reason db).2.feedbacks = db.feedbacks ∧
    (rejectSubscription subId reason db).2.subscriptions.map subFrame =
      db.subscriptions.map subFrame := by
  unfold rejectSubscription
  cases hfind : db.subscriptions.find? (fun s => s.id == subId) with
  | none => exact ⟨rfl, rfl, rfl⟩
  | some sub =>
    cases hc : (["pending", "paid"].contains sub.status) with
    | false =>
      simp only [hc]
      exact ⟨rfl, rfl, rfl⟩
    | true =>
      simp only [hc, Bool.not_true, Bool.false_eq_true, if_false]
      refine ⟨trivial, trivial, ?_⟩
      rw [List.map_map]
      apply List.map_congr_left
      intro x hx
      by_cases hxe : (x.id == sub.id) = true
      · have hxeq : x = sub := by
          have hmem := List.mem_of_find?_eq_some hfind
          have h1 : x.id = sub.id := by simpa using hxe
          exact List.inj_on_of_nodup_map hnd hx hmem h1
        subst hxeq
        simp [subFrame]
      · have hxe' : (x.id == sub.id) = false := by simpa using hxe
        simp [Function.comp, hxe', subFrame]

theorem C10_reject_frame_witness :
    (rejectSubscription 3 (some "incomplete payment") w4Db).2.users = w4Db.users ∧
    (rejectSubscription 3 (some "incomplete payment") w4Db).2.feedbacks = w4Db.feedbacks ∧
    (rejectSubscription 3 (some "incomplete payment") w4Db).2.subscriptions.map subFrame =
      w4Db.subscriptions.map subFrame :=
  C10_reject_frame w4Db 3 (some "incomplete payment") (by decide)

/-! ## C6 -/

/-- C6: the payment-initiation hash is a deterministic function of the
merchant id, merchant secret, order id, amount and currency (two runs on
equal inputs give the same value), and it coincides with the reference
double-hash scheme stated by the spec, instantiated with the md5 hex
digest. -/
theorem C6_hash_matches_reference (merchantId merchantSecret orderId : String)
    (amountCents : Nat) (currency : String)
    (merchantId2 merchantSecret2 orderId2 : String) (amountCents2 : Nat) (currency2 : String)
    (h1 : merchantId = merchantId2) (h2 : merchantSecret = merchantSecret2)
    (h3 : orderId = orderId2) (h4 : amountCents = amountCents2) (h5 : currency = currency2) :
    generatePaymentHash merchantId merchantSecret orderId amountCents currency =
      specDoubleHash md5Hex merchantId merchantSecret orderId amountCents currency ∧
    generatePaymentHash merchantId merchantSecret orderId amountCents currency =
      generatePaymentHash merchantId2 merchantSecret2 orderId2 amountCents2 currency2 := by
  subst h1 h2 h3 h4 h5
  exact ⟨rfl, rfl⟩

theorem C6_hash_matches_reference_witness :
    generatePaymentHash "M1" "secret1" "MC-1" 150000 "LKR" =
      specDoubleHash md5Hex "M1" "secret1" "MC-1" 150000 "LKR" ∧
    generatePaymentHash "M1" "secret1" "MC-1" 150000 "LKR" =
      generatePaymentHash "M1" "secret1" "MC-1" 150000 "LKR" :=
  C6_hash_matches_reference "M1" "secret1" "MC-1" 150000 "LKR"
    "M1" "secret1" "MC-1" 150000 "LKR" rfl rfl rfl rfl rfl

/-! ## C8 -/

lemma natCeil_div_eq_ceilDiv (t l : Nat) (hl : 1 ≤ l) :
    ⌈(t : ℚ) / (l : ℚ)⌉₊ = t ⌈/⌉ l := by
  have hl0 : (0 : ℚ) < l := by exact_mod_cast hl
  apply eq_of_forall_ge_iff
  intro c
  rw [Nat.ceil_le, div_le_iff₀ hl0, ceilDiv_le_iff_le_mul hl]
  rw [mul_comm (l : Nat) c]
  exact_mod_cast Iff.rfl

/-- C8: the feedback listing returns at most the effective page limit of
items, reports as total the count of records matching the active query
filters, and reports a total-pages count equal to the ceiling of total
divided by the limit. -/
theorem C8_pagination_bounds (pageQ limitQ : Nat)
    (filter confidenceFilter dateRange sortBy sortOrder : String)
    (now todayStart monthStart : Int) (db : DB) :
    (getAllFeedback pageQ limitQ filter confidenceFilter dateRange sortBy sortOrder
        now todayStart monthStart db).items.length ≤
      (getAllFeedback pageQ limitQ filter confidenceFilter dateRange sortBy sortOrder
        now todayStart monthStart db).itemsPerPage ∧
    (getAllFeedback pageQ limitQ filter confidenceFilter dateRange sortBy sortOrder
        now todayStart monthStart db).totalItems =
      (db.feedbacks.filter (feedbackQuery filter confidenceFilter
        (resolveStartDate dateRange now todayStart monthStart))).length ∧
    (getAllFeedback pageQ limitQ filter confidenceFilter dateRange sortBy sortOrder
        now todayStart monthStart db).totalPages =
      (getAllFeedback pageQ limitQ filter confidenceFilter dateRange sortBy sortOrder
        now todayStart monthStart db).totalItems ⌈/⌉
      (getAllFeedback pageQ limitQ filter confidenceFilter dateRange sortBy sortOrder
        now todayStart monthStart db).itemsPerPage := by
  have hl : 1 ≤ (if limitQ = 0 then 10 else limitQ) := by
    cases limitQ with
    | zero => simp
    | succ n => simp [Nat.succ_le_succ]
  refine ⟨?_, ?_, ?_⟩
  · simp only [getAllFeedback]
    rw [List.length_take]
    exact min_le_left _ _
  · rfl
  · simp only [getAllFeedback]
    exact natCeil_div_eq_ceilDiv _ _ hl

/-! ## C2

The signed string is a plain concatenation of merchant id, order id,
amount, currency and status code.  Moving characters between adjacent
fields (amount 1000.00 with currency LKR, against amount 1000.0 with
currency 0LKR) leaves the concatenation, hence the md5 signature,
unchanged, so such a tampered payload carrying the original signature is
accepted, refuting the claim as stated. -/

lemma c2_same_sig : calcMd5sig "secret1" c2Payload2 = calcMd5sig "secret1" c2Payload1a := by
  have hpre : ("M1" ++ "MC-2" ++ "1000.0" ++ "0LKR" ++ "2" : String) =
      ("M1" ++ "MC-2" ++ "1000.00" ++ "LKR" ++ "2" : String) := by decide
  show md5HexUpper ("M1" ++ "MC-2" ++ "1000.0" ++ "0LKR" ++ "2" ++ md5HexUpper "secret1") =
    md5HexUpper ("M1" ++ "MC-2" ++ "1000.00" ++ "LKR" ++ "2" ++ md5HexUpper "secret1")
  rw [hpre]

/-- C2 counterexample: the claim fails on the code.  There is an accepted
payload and a second payload differing from it in the amount and currency
fields, carrying the original signature, that is not answered with the
400 signature-mismatch response. -/
theorem C2_tamper_reject_counterexample :
    ¬ (∀ (secret : String) (p1 p2 : NotifyPayload) (db : DB),
        calcMd5sig secret p1 = p1.md5sig →
        p2.merchant_id = p1.merchant_id →
        p2.order_id = p1.order_id →
        p2.md5sig = p1.md5sig →
        (p2.payhere_amount ≠ p1.payhere_amount ∨
         p2.payhere_currency ≠ p1.payhere_currency ∨
         p2.status_code ≠ p1.status_code) →
        (handlePaymentNotification secret p2 db).1 =
          mkResp 400 "Invalid payment signature") := by
  intro h
  have hsig2 : calcMd5sig "secret1" c2Payload2 = c2Payload2.md5sig := by
    rw [c2_same_sig]; rfl
  have hnot : ¬ (calcMd5sig "secret1" c2Payload2 ≠ c2Payload2.md5sig) := fun hne => hne hsig2
  have hres : (handlePaymentNotification "secret1" c2Payload2 w9Db).1 =
      mkResp 404 "Subscription not found" := by
    simp only [handlePaymentNotification, if_neg hnot]
    rfl
  have happ := h "secret1" c2Payload1 c2Payload2 w9Db rfl rfl rfl rfl
    (Or.inl (by decide))
  rw [hres] at happ
  exact absurd happ (by decide)

/-- C2 amended: the handler answers the 400 signature-mismatch response
exactly when the recomputed keyed hash differs from the carried
signature.  A tampered amount, currency or status code is therefore
rejected iff it changes the recomputed hash; shifting characters between
the concatenated fields keeps the hash and is accepted. -/
theorem C2_amended_reject_iff_hash_mismatch (secret : String) (p : NotifyPayload) (db : DB) :
    (handlePaymentNotification secret p db).1 = mkResp 400 "Invalid payment signature" ↔
      calcMd5sig secret p ≠ p.md5sig := by
  unfold handlePaymentNotification
  by_cases hsig : calcMd5sig secret p ≠ p.md5sig
  · simp [hsig]
  · rw [if_neg hsig]
    cases hfind : db.subscriptions.find? (fun s => s.orderId == p.order_id) with
    | none => simp [mkResp, hsig]
    | some sub => simp [mkResp, hsig]

/-! ## C3

`handlePaymentNotification` writes the mapped status into the matched
subscription without any precondition on its current status, so a later
verified webhook moves even a terminal status (below: an approved
subscription in status success is moved to canceled).  The admin
operations do respect the lifecycle, which is the amended statement. -/

/-- C3 counterexample: the claim fails on the code.  The state `c3Db` is
reachable (an admin approval applied to `c3DbPaid` yields it), and a
verified webhook with status code -1 applied to it moves the matched
subscription from the terminal status success to canceled, which is not
a forward step of the lifecycle. -/
theorem C3_lifecycle_counterexample :
    (applyOp (.approve 1) c3DbPaid).2 = c3Db ∧
    ¬ (∀ (op : LifecycleOp) (db : DB),
        List.Forall₂ (fun s s' => statusForward s.status s'.status = true)
          db.subscriptions ((applyOp op db).2.subscriptions)) := by
  constructor
  · decide
  · intro h
    have hsig : calcMd5sig "secret1" c3Payload = c3Payload.md5sig := rfl
    have hnot : ¬ (calcMd5sig "secret1" c3Payload ≠ c3Payload.md5sig) := fun hne => hne hsig
    have hres : (handlePaymentNotification "secret1" c3Payload c3Db).2.subscriptions =
        [{ c3Sub with paymentId := some "PAY-9", status := "canceled" }] := by
      simp only [handlePaymentNotification, if_neg hnot]
      rfl
    have happ := h (.notify "secret1" c3Payload) c3Db
    simp only [applyOp] at happ
    rw [hres] at happ
    cases happ with
    | cons h1 _ => exact absurd h1 (by decide)

/-- C3 amended: status transitions are monotonic along the defined paths
and never regress from a terminal state under the admin operations
(approve, reject); a verified payment notification, however, overwrites
the matched subscription status with the mapped value whatever the
current status is, so the invariant holds only for runs in which no
further webhook arrives once a subscription is terminal. -/
theorem C3_amended_admin_ops_preserve_lifecycle (op : LifecycleOp) (db : DB)
    (hop : isAdminOp op = true)
    (hnd : (db.subscriptions.map (fun s => s.id)).Nodup) :
    List.Forall₂ (fun s s' => statusForward s.status s'.status = true)
      db.subscriptions ((applyOp op db).2.subscriptions) := by
  have hself : ∀ l : List Subscription,
      List.Forall₂ (fun s s' => statusForward s.status s'.status = true) l l :=
    fun l => List.forall₂_same.mpr (fun x _ => statusForward_self x.status)
  have hmapped : ∀ (sub updated : Subscription),
      db.subscriptions.find? (fun s => s.id == sub.id) = some sub →
      statusForward sub.status updated.status = true →
      List.Forall₂ (fun s s' => statusForward s.status s'.status = true)
        db.subscriptions
        (db.subscriptions.map (fun s =>
          if s.id == sub.id then updated else s)) := by
    intro sub updated hfind hstep
    rw [List.forall₂_map_right_iff]
    apply List.forall₂_same.mpr
    intro x hx
    by_cases hxe : (x.id == sub.id) = true
    · have hxeq : x = sub :=
        List.inj_on_of_nodup_map hnd hx (List.mem_of_find?_eq_some hfind)
          (by simpa using hxe)
      subst hxeq
      simp only [beq_self_eq_true, if_true]
      exact hstep
    · have hxe' : (x.id == sub.id) = false := by simpa using hxe
      simp [hxe']
      exact statusForward_self x.status
  cases op with
  | notify secret p => exact absurd hop (by simp [isAdminOp])
  | approve i =>
    cases hfind : db.subscriptions.find? (fun s => s.id == i) with
    | none =>
      simp only [applyOp, approveSubscription, hfind]
      exact hself _
    | some sub =>
      cases hc : (["pending", "paid"].contains sub.status) with
      | false =>
        simp only [applyOp, approveSubscription, hfind, hc]
        exact hself _
      | true =>
        have hid : sub.id = i := by simpa using List.find?_some hfind
        have hstat := (contains_pending_paid sub.status).mp hc
        have hstep : statusForward sub.status "success" = true := by
          rcases hstat with hs | hs <;> rw [hs] <;> decide
        have hfind' : db.subscriptions.find? (fun s => s.id == sub.id) = some sub := by
          rw [hid]; exact hfind
        simp only [applyOp, approveSubscription, hfind, hc, Bool.not_true,
          Bool.false_eq_true, if_false]
        cases db.users.find? (fun u => u.id == sub.userId) with
        | none => exact hmapped sub _ hfind' hstep
        | some u => exact hmapped sub _ hfind' hstep
  | reject i reason =>
    cases hfind : db.subscriptions.find? (fun s => s.id == i) with
    | none =>
      simp only [applyOp, rejectSubscription, hfind]
      exact hself _
    | some sub =>
      cases hc : (["pending", "paid"].contains sub.status) with
      | false =>
        simp only [applyOp, rejectSubscription, hfind, hc]
        exact hself _
      | true =>
        have hid : sub.id = i := by simpa using List.find?_some hfind
        have hstat := (contains_pending_paid sub.status).mp hc
        have hstep : statusForward sub.status "failed" = true := by
          rcases hstat with hs | hs <;> rw [hs] <;> decide
        have hfind' : db.subscriptions.find? (fun s => s.id == sub.id) = some sub := by
          rw [hid]; exact hfind
        simp only [applyOp, rejectSubscription, hfind, hc, Bool.not_true,
          Bool.false_eq_true, if_false]
        exact hmapped sub _ hfind' hstep

theorem C3_amended_admin_ops_preserve_lifecycle_witness :
    isAdminOp (.approve 3) = true ∧
    ((w4Db.subscriptions.map (fun s => s.id)).Nodup) ∧
    List.Forall₂ (fun s s' => statusForward s.status s'.status = true)
      w4Db.subscriptions ((applyOp (.approve 3) w4Db).2.subscriptions) :=
  ⟨rfl, by decide, C3_amended_admin_ops_preserve_lifecycle (.approve 3) w4Db rfl (by decide)⟩

end MCQuiz
